import Mathlib

/-!
Shallow embedding of the password service core
(`app/core/security.py`, `app/core/config.py`, `app/core/validator.py`,
`app/core/generator.py`, `app/core/scoring.py`,
`app/services/password_service.py`, `app/models/request_schemas.py`,
`app/routers/password.py`).

Modelling conventions:
- Python strings are Lean `String`; single characters are `Char`.
- The four character-class constants from `security.py` are the exact ASCII
  code ranges of `string.ascii_uppercase`, `string.ascii_lowercase`,
  `string.digits` and `string.punctuation`, in the same order.
- Randomness (`secrets.choice`, the secure shuffle) is externalized: each
  call site of `secrets.choice` receives an oracle natural number reduced
  modulo the alphabet size, and the stdlib shuffle is an explicit function
  parameter; theorems that need it assume it permutes its input.
- Python float arithmetic in `scoring.py` is modelled by exact rationals,
  with `math.log2` abstracted as an oracle `Nat → ℚ`; every theorem below
  holds for an arbitrary oracle, so no claim depends on float rounding.
- Python `or` on a possibly-absent value (falsy test) is modelled explicitly
  (`pyOrInt`, `pyOrStr`): `None`, `0` and `""` select the right operand.
- Fallible Python functions (raising `ValueError`) return `Except String`.
-/

namespace App

/-- Consecutive ASCII characters starting at code `lo`, `n` of them. -/
def charRange (lo n : Nat) : List Char :=
  (List.range n).map (fun i => Char.ofNat (lo + i))

/-- `security.UPPERCASE = string.ascii_uppercase` (codes 65-90). -/
def UPPERCASE : List Char := charRange 65 26

/-- `security.LOWERCASE = string.ascii_lowercase` (codes 97-122). -/
def LOWERCASE : List Char := charRange 97 26

/-- `security.DIGITS = string.digits` (codes 48-57). -/
def DIGITS : List Char := charRange 48 10

/-- `security.SYMBOLS = string.punctuation` (codes 33-47, 58-64, 91-96, 123-126). -/
def SYMBOLS : List Char :=
  charRange 33 15 ++ charRange 58 7 ++ charRange 91 6 ++ charRange 123 4

/-- `security.FULL_SET = UPPERCASE + LOWERCASE + DIGITS + SYMBOLS`. -/
def FULL_SET : List Char := UPPERCASE ++ LOWERCASE ++ DIGITS ++ SYMBOLS

/-- `config.PasswordPolicy` (pydantic model; the field bounds hold for the
constant instance below). -/
structure PasswordPolicy where
  min_length : Nat
  max_length : Nat
  default_length : Nat
  deriving DecidableEq, Repr

/-- `config.get_policy()`: the singleton policy, all fields at their
defaults (min 12, max 128, default 16). -/
def get_policy : PasswordPolicy := ⟨12, 128, 16⟩

/-- `validator.ValidationResult` (dataclass of five booleans). -/
structure ValidationResult where
  length_ok : Bool
  upper_ok : Bool
  lower_ok : Bool
  digit_ok : Bool
  symbol_ok : Bool
  deriving DecidableEq, Repr

/-- `ValidationResult.overall_result` property: `all` of the five flags. -/
def ValidationResult.overall_result (v : ValidationResult) : Bool :=
  v.length_ok && v.upper_ok && v.lower_ok && v.digit_ok && v.symbol_ok

/-- `validator.check_length`. -/
def check_length (password : String) : Bool :=
  decide (get_policy.min_length ≤ password.length) &&
    decide (password.length ≤ get_policy.max_length)

/-- `validator.check_upper`: `any(ch in security.UPPERCASE for ch in password)`. -/
def check_upper (password : String) : Bool :=
  password.toList.any (fun ch => decide (ch ∈ UPPERCASE))

/-- `validator.check_lower`. -/
def check_lower (password : String) : Bool :=
  password.toList.any (fun ch => decide (ch ∈ LOWERCASE))

/-- `validator.check_digit`. -/
def check_digit (password : String) : Bool :=
  password.toList.any (fun ch => decide (ch ∈ DIGITS))

/-- `validator.check_symbol`. -/
def check_symbol (password : String) : Bool :=
  password.toList.any (fun ch => decide (ch ∈ SYMBOLS))

/-- `validator.validate_password`. -/
def validate_password (password : String) : ValidationResult :=
  { length_ok := check_length password
    upper_ok := check_upper password
    lower_ok := check_lower password
    digit_ok := check_digit password
    symbol_ok := check_symbol password }

/-- `secrets.choice(chars)`: one uniform draw, externalized as an oracle
natural `r` reduced modulo the alphabet size.  For the nonempty alphabets
used in the generator the default `'A'` is unreachable. -/
def pyChoice (chars : List Char) (r : Nat) : Char :=
  chars.getD (r % chars.length) 'A'

/-- `generator._pick(characters, count)`: `count` independent
`secrets.choice` draws, the `i`-th using oracle value `rs i`. -/
def _pick (characters : List Char) (rs : Nat → Nat) (count : Nat) : List Char :=
  (List.range count).map (fun i => pyChoice characters (rs i))

/-- Python `x or d` for `x : int | None`: `None` and `0` are falsy. -/
def pyOrInt (x : Option Int) (d : Int) : Int :=
  match x with
  | none => d
  | some v => if v = 0 then d else v

/-- The generator's `required_chars` list: one `secrets.choice` draw from
each of the four classes. -/
def requiredChars (cU cL cD cS : Nat) : List Char :=
  [pyChoice UPPERCASE cU, pyChoice LOWERCASE cL,
   pyChoice DIGITS cD, pyChoice SYMBOLS cS]

/-- First `ValueError` message in `generate_password`. -/
def msgTooSmall : String := "Password length must be at least 4 to satisfy constraints"

/-- Second `ValueError` message in `generate_password`. -/
def msgTooLarge : String := "Requested password length exceeds policy maximum"

/-- Third (unreachable) `ValueError` message in `generate_password`. -/
def msgInsufficient : String := "Length insufficient for required character categories"

/-- `generator.generate_password(length)`.  `cU cL cD cS` are the oracle
values for the four required-class draws, `fullO` the oracle stream for the
`_pick` draws from `FULL_SET`, and `shuffle` the secure stdlib shuffle
(`SecureRandom.shuffle`, which delegates to `secrets.SystemRandom().shuffle`). -/
def generate_password (length : Option Int) (cU cL cD cS : Nat)
    (fullO : Nat → Nat) (shuffle : List Char → List Char) :
    Except String String :=
  let policy := get_policy
  let len : Int := pyOrInt length (policy.default_length : Int)
  if len < 4 then Except.error msgTooSmall
  else if len > (policy.max_length : Int) then Except.error msgTooLarge
  else
    let required_chars := requiredChars cU cL cD cS
    if len < (required_chars.length : Int) then Except.error msgInsufficient
    else
      let remaining_length : Nat := (len - (required_chars.length : Int)).toNat
      let password_chars := required_chars ++ _pick FULL_SET fullO remaining_length
      Except.ok (String.mk (shuffle password_chars))

/-- `scoring.StrengthResult` (dataclass). -/
structure StrengthResult where
  score : Int
  label : String
  deriving DecidableEq, Repr

/-- `scoring._LABELS`: the insertion-ordered dict `range(a, b) ↦ label`,
as a list of `(a, b, label)` triples. -/
def _LABELS : List (Int × Int × String) :=
  [(0, 4, "weak"), (4, 7, "medium"), (7, 11, "strong")]

/-- `scoring._label_from_score`: first dict entry whose `range` contains the
(integer) score, else the fallback. -/
def _label_from_score (s : Int) : String :=
  match _LABELS.find? (fun e => decide (e.1 ≤ s) && decide (s < e.2.1)) with
  | some e => e.2.2
  | none => "unknown"

/-- `scoring._character_set_size`: sum of the sizes of the classes present,
floored at the lowercase-class size. -/
def _character_set_size (password : String) : Nat :=
  let size :=
    (if password.toList.any (fun ch => decide (ch ∈ UPPERCASE)) then UPPERCASE.length else 0) +
    (if password.toList.any (fun ch => decide (ch ∈ LOWERCASE)) then LOWERCASE.length else 0) +
    (if password.toList.any (fun ch => decide (ch ∈ DIGITS)) then DIGITS.length else 0) +
    (if password.toList.any (fun ch => decide (ch ∈ SYMBOLS)) then SYMBOLS.length else 0)
  max size LOWERCASE.length

/-- `scoring._entropy`: `math.log2(charset_size ** len(password))` for a
nonempty password, else `0.0`.  `log2` is the abstract float logarithm. -/
def _entropy (log2 : Nat → ℚ) (password : String) : ℚ :=
  if password.length ≠ 0 then log2 (_character_set_size password ^ password.length) else 0

/-- Python 3 `round` to an integer: round half to even. -/
def pyRound (q : ℚ) : Int :=
  let f : Int := ⌊q⌋
  let frac : ℚ := q - (f : ℚ)
  if frac < 1 / 2 then f
  else if 1 / 2 < frac then f + 1
  else if f % 2 = 0 then f else f + 1

/-- Local `base` of `scoring.score`: `min(len(password), 20) / 2`. -/
def base (password : String) : ℚ :=
  ((min password.length 20 : Nat) : ℚ) / 2

/-- Local `diversity` of `scoring.score`: number of true class flags from
validating the password. -/
def diversity (password : String) : Nat :=
  (if (validate_password password).upper_ok then 1 else 0) +
  (if (validate_password password).lower_ok then 1 else 0) +
  (if (validate_password password).digit_ok then 1 else 0) +
  (if (validate_password password).symbol_ok then 1 else 0)

/-- Local `entropy_score` of `scoring.score`: `min(_entropy(password)/10, 4)`. -/
def entropy_score (log2 : Nat → ℚ) (password : String) : ℚ :=
  min (_entropy log2 password / 10) 4

/-- Local `repetition_penalty` of `scoring.score`: `-2` when some character
occurs more than `len(password)/2` times (stated integrally:
`2 * count > len`), else `0`. -/
def repetition_penalty (password : String) : ℚ :=
  if password.toList.any (fun ch => decide (password.length < 2 * password.toList.count ch))
  then -2 else 0

/-- Local `raw_score` of `scoring.score`
(`base * 0.4 + diversity * 1.5 + entropy_score + repetition_penalty`). -/
def raw_score (log2 : Nat → ℚ) (password : String) : ℚ :=
  base password * (2 / 5) + (diversity password : ℚ) * (3 / 2) +
    entropy_score log2 password + repetition_penalty password

/-- Local `bounded_score` of `scoring.score`:
`max(0, min(10, round(raw_score)))`. -/
def bounded_score (log2 : Nat → ℚ) (password : String) : Int :=
  max 0 (min 10 (pyRound (raw_score log2 password)))

/-- `scoring.score(password)`, with float arithmetic modelled exactly over
ℚ and `math.log2` abstracted as the oracle `log2`; the locals of the Python
function are the top-level definitions above. -/
def score (log2 : Nat → ℚ) (password : String) : StrengthResult :=
  { score := bounded_score log2 password
    label := _label_from_score (bounded_score log2 password) }

/-- Python `password or gen` for `password : str | None`, where `gen` is the
(possibly failing) generator call: `None` and `""` are falsy. -/
def pyOrStr (password : Option String) (gen : Except String String) :
    Except String String :=
  match password with
  | none => gen
  | some p => if p = "" then gen else Except.ok p

/-- `password_service.full_flow(password, length)`: take the supplied
password unless it is falsy, generating one otherwise; then validate and
score it. -/
def full_flow (password : Option String) (length : Option Int)
    (log2 : Nat → ℚ) (cU cL cD cS : Nat) (fullO : Nat → Nat)
    (shuffle : List Char → List Char) :
    Except String (String × ValidationResult × StrengthResult) :=
  match pyOrStr password (generate_password length cU cL cD cS fullO shuffle) with
  | Except.error e => Except.error e
  | Except.ok pwd => Except.ok (pwd, validate_password pwd, score log2 pwd)

/-- Python truthiness of `str | None`: `None` and `""` are falsy. -/
def pyFalsyStr (password : Option String) : Bool :=
  match password with
  | none => true
  | some p => decide (p = "")

/-- Python truthiness of `int | None`: `None` and `0` are falsy. -/
def pyFalsyInt (length : Option Int) : Bool :=
  match length with
  | none => true
  | some v => decide (v = 0)

/-- `ValueError` message raised by `FullRequest.model_post_init`. -/
def msgProvideEither : String := "Provide either a password or a length for full analysis"

/-- Pydantic field-constraint message for `FullRequest.length` (`ge=4 le=256`). -/
def msgLengthField : String := "length must be between 4 and 256"

/-- `request_schemas.FullRequest` construction: field validation
(`length` between 4 and 256 when present) followed by `model_post_init`
(rejects when both `password` and `length` are falsy). -/
def FullRequest.build (password : Option String) (length : Option Int) :
    Except String (Option String × Option Int) :=
  if (match length with
      | none => true
      | some l => decide (4 ≤ l) && decide (l ≤ 256)) = false
  then Except.error msgLengthField
  else if pyFalsyStr password && pyFalsyInt length then Except.error msgProvideEither
  else Except.ok (password, length)

/-- `routers/password.py: full_analysis`: build the request (contract
check), then run the service flow. -/
def full_analysis (password : Option String) (length : Option Int)
    (log2 : Nat → ℚ) (cU cL cD cS : Nat) (fullO : Nat → Nat)
    (shuffle : List Char → List Char) :
    Except String (String × ValidationResult × StrengthResult) :=
  match FullRequest.build password length with
  | Except.error e => Except.error e
  | Except.ok _ => full_flow password length log2 cU cL cD cS fullO shuffle

/-- Whether an `Except` result is a success (used to state when the
generator raises). -/
def isOkE (e : Except String String) : Bool :=
  match e with
  | Except.ok _ => true
  | Except.error _ => false

/-! Helper lemmas (shared). -/

theorem pyChoice_mem (chars : List Char) (r : Nat) (h : chars ≠ []) :
    pyChoice chars r ∈ chars := by
  have hl : 0 < chars.length := List.length_pos.mpr h
  have hm : r % chars.length < chars.length := Nat.mod_lt _ hl
  unfold pyChoice
  rw [List.getD_eq_getElem?_getD, List.getElem?_eq_getElem hm]
  exact List.getElem_mem hm

theorem pyOrInt_some_of_ne (v d : Int) (h : v ≠ 0) : pyOrInt (some v) d = v := by
  simp [pyOrInt, h]

theorem requiredChars_length (cU cL cD cS : Nat) :
    (requiredChars cU cL cD cS).length = 4 := rfl

theorem _pick_length (characters : List Char) (rs : Nat → Nat) (count : Nat) :
    (_pick characters rs count).length = count := by
  simp [_pick]

/-! Claim theorems. -/

/-- C2: `validate_password` is total and each flag is exactly its spec:
`length_ok` iff the length is within the policy bounds, each class flag iff
a character of that class occurs, and `overall_result` is the conjunction
of the five flags. -/
theorem validate_password_spec (p : String) :
    ((validate_password p).length_ok = true ↔
      (get_policy.min_length ≤ p.length ∧ p.length ≤ get_policy.max_length)) ∧
    ((validate_password p).upper_ok = true ↔ ∃ c, c ∈ p.toList ∧ c ∈ UPPERCASE) ∧
    ((validate_password p).lower_ok = true ↔ ∃ c, c ∈ p.toList ∧ c ∈ LOWERCASE) ∧
    ((validate_password p).digit_ok = true ↔ ∃ c, c ∈ p.toList ∧ c ∈ DIGITS) ∧
    ((validate_password p).symbol_ok = true ↔ ∃ c, c ∈ p.toList ∧ c ∈ SYMBOLS) ∧
    (validate_password p).overall_result =
      ((validate_password p).length_ok && (validate_password p).upper_ok &&
        (validate_password p).lower_ok && (validate_password p).digit_ok &&
        (validate_password p).symbol_ok) := by
  refine ⟨?_, ?_, ?_, ?_, ?_, rfl⟩ <;>
    simp [validate_password, check_length, check_upper, check_lower, check_digit,
      check_symbol]

/-- C8: the four character classes are pairwise disjoint, and `FULL_SET`
is exactly their union. -/
theorem charsets_spec :
    (∀ c : Char, c ∈ FULL_SET ↔
      (c ∈ UPPERCASE ∨ c ∈ LOWERCASE ∨ c ∈ DIGITS ∨ c ∈ SYMBOLS)) ∧
    (∀ c ∈ UPPERCASE, c ∉ LOWERCASE) ∧ (∀ c ∈ UPPERCASE, c ∉ DIGITS) ∧
    (∀ c ∈ UPPERCASE, c ∉ SYMBOLS) ∧ (∀ c ∈ LOWERCASE, c ∉ DIGITS) ∧
    (∀ c ∈ LOWERCASE, c ∉ SYMBOLS) ∧ (∀ c ∈ DIGITS, c ∉ SYMBOLS) := by
  refine ⟨fun c => ?_, ?_, ?_, ?_, ?_, ?_, ?_⟩
  · simp [FULL_SET, List.mem_append, or_assoc]
  all_goals decide

/-- C5: on the empty password the entropy is defined as `0` directly
(independently of the float logarithm, so the charset-size floor is never
consulted) and `score` returns exactly score `0` with label `"weak"`. -/
theorem score_empty_spec (log2 : Nat → ℚ) :
    _entropy log2 ("") = 0 ∧ score log2 ("") = ⟨0, "weak"⟩ := by
  have h1 : _entropy log2 ("") = 0 := by simp [_entropy]
  refine ⟨h1, ?_⟩
  have h2 : entropy_score log2 ("") = 0 := by rw [entropy_score, h1]; norm_num
  have h3 : raw_score log2 ("") = 0 := by
    rw [raw_score, h2]
    norm_num [base, diversity, repetition_penalty, validate_password,
      check_upper, check_lower, check_digit, check_symbol]
  have h4 : bounded_score log2 ("") = 0 := by
    rw [bounded_score, h3]
    norm_num [pyRound]
  unfold score
  rw [h4]
  rfl

/-- C7: with both `password` and `length` absent, the combined full-analysis
endpoint fails at the request contract with the `model_post_init` message,
for every oracle — in particular no generation, validation or scoring
influences the outcome. -/
theorem full_analysis_both_absent_spec (log2 : Nat → ℚ) (cU cL cD cS : Nat)
    (fullO : Nat → Nat) (shuffle : List Char → List Char) :
    full_analysis none none log2 cU cL cD cS fullO shuffle =
      Except.error msgProvideEither := rfl

theorem label_bands (s : Int) (h0 : 0 ≤ s) (h10 : s ≤ 10) :
    _label_from_score s =
      (if s ≤ 3 then ("weak" : String) else if s ≤ 6 then "medium" else "strong") := by
  interval_cases s <;> decide

/-- C4: every score is an integer in `[0, 10]`, and the label is determined
from the score by the fixed bands `0-3 ↦ weak`, `4-6 ↦ medium`,
`7-10 ↦ strong`; the clamped score never maps to `"unknown"`. -/
theorem score_bounds_label_spec (log2 : Nat → ℚ) (p : String) :
    (0 ≤ (score log2 p).score ∧ (score log2 p).score ≤ 10) ∧
    (score log2 p).label =
      (if (score log2 p).score ≤ 3 then ("weak" : String)
       else if (score log2 p).score ≤ 6 then "medium" else "strong") ∧
    (score log2 p).label ≠ ("unknown" : String) := by
  have hb : (score log2 p).score = max 0 (min 10 (pyRound (raw_score log2 p))) := rfl
  have h0 : 0 ≤ (score log2 p).score := by rw [hb]; omega
  have h10 : (score log2 p).score ≤ 10 := by rw [hb]; omega
  have hl : (score log2 p).label = _label_from_score ((score log2 p).score) := rfl
  refine ⟨⟨h0, h10⟩, ?_, ?_⟩
  · rw [hl, label_bands _ h0 h10]
  · rw [hl, label_bands _ h0 h10]
    split
    · decide
    · split <;> decide

theorem generate_password_ok (length : Option Int) (cU cL cD cS : Nat)
    (fullO : Nat → Nat) (shuffle : List Char → List Char)
    (h4 : 4 ≤ pyOrInt length 16) (hmax : pyOrInt length 16 ≤ 128) :
    generate_password length cU cL cD cS fullO shuffle =
      Except.ok (String.mk (shuffle (requiredChars cU cL cD cS ++
        _pick FULL_SET fullO (pyOrInt length 16 - 4).toNat))) := by
  simp only [generate_password, get_policy, Nat.cast_ofNat, requiredChars_length]
  rw [if_neg (by omega), if_neg (by omega), if_neg (by omega)]

theorem generate_password_err_small (length : Option Int) (cU cL cD cS : Nat)
    (fullO : Nat → Nat) (shuffle : List Char → List Char)
    (h : pyOrInt length 16 < 4) :
    generate_password length cU cL cD cS fullO shuffle = Except.error msgTooSmall := by
  simp only [generate_password, get_policy, Nat.cast_ofNat]
  rw [if_pos (by omega)]

theorem generate_password_err_large (length : Option Int) (cU cL cD cS : Nat)
    (fullO : Nat → Nat) (shuffle : List Char → List Char)
    (h : 128 < pyOrInt length 16) :
    generate_password length cU cL cD cS fullO shuffle = Except.error msgTooLarge := by
  simp only [generate_password, get_policy, Nat.cast_ofNat]
  rw [if_neg (by omega), if_pos (by omega)]

theorem shuffled_length (cU cL cD cS : Nat) (fullO : Nat → Nat)
    (shuffle : List Char → List Char) (hs : ∀ l, (shuffle l).Perm l) (n : Nat) :
    (String.mk (shuffle (requiredChars cU cL cD cS ++ _pick FULL_SET fullO n))).length
      = 4 + n := by
  have h1 : (String.mk (shuffle (requiredChars cU cL cD cS ++ _pick FULL_SET fullO n))).length
      = (shuffle (requiredChars cU cL cD cS ++ _pick FULL_SET fullO n)).length := rfl
  rw [h1, (hs _).length_eq]
  simp [requiredChars_length, _pick_length]

theorem anyMem_of_mem (s cs : List Char) (c : Char) (hc : c ∈ s) (hcs : c ∈ cs) :
    s.any (fun ch => decide (ch ∈ cs)) = true := by
  simp only [List.any_eq_true]
  exact ⟨c, hc, by simpa using hcs⟩

theorem shuffled_mem (cU cL cD cS : Nat) (fullO : Nat → Nat)
    (shuffle : List Char → List Char) (hs : ∀ l, (shuffle l).Perm l) (n : Nat)
    (c : Char) (hc : c ∈ requiredChars cU cL cD cS) :
    c ∈ shuffle (requiredChars cU cL cD cS ++ _pick FULL_SET fullO n) := by
  exact (hs _).mem_iff.mpr (List.mem_append_left _ hc)

/-- C1: for every requested length between 4 and the policy maximum, and
every random oracle and permuting shuffle, `generate_password` succeeds
with a password of exactly that length containing at least one uppercase,
one lowercase, one digit, and one symbol character. -/
theorem generate_password_spec (L : Int) (cU cL cD cS : Nat) (fullO : Nat → Nat)
    (shuffle : List Char → List Char) (hs : ∀ l, (shuffle l).Perm l)
    (h4 : 4 ≤ L) (hmax : L ≤ (get_policy.max_length : Int)) :
    ∃ s, generate_password (some L) cU cL cD cS fullO shuffle = Except.ok s ∧
      s.length = L.toNat ∧ check_upper s = true ∧ check_lower s = true ∧
      check_digit s = true ∧ check_symbol s = true := by
  have hL0 : L ≠ 0 := by omega
  have he : pyOrInt (some L) 16 = L := pyOrInt_some_of_ne L 16 hL0
  have h4' : 4 ≤ pyOrInt (some L) 16 := by rw [he]; exact h4
  have hmax' : pyOrInt (some L) 16 ≤ 128 := by
    rw [he]
    have : ((get_policy.max_length : Nat) : Int) = 128 := by norm_num [get_policy]
    omega
  refine ⟨_, generate_password_ok (some L) cU cL cD cS fullO shuffle h4' hmax',
    ?_, ?_, ?_, ?_, ?_⟩
  · rw [shuffled_length cU cL cD cS fullO shuffle hs]
    omega
  · exact anyMem_of_mem _ UPPERCASE _
      (shuffled_mem cU cL cD cS fullO shuffle hs _ _ (by simp [requiredChars]))
      (pyChoice_mem UPPERCASE cU (by decide))
  · exact anyMem_of_mem _ LOWERCASE _
      (shuffled_mem cU cL cD cS fullO shuffle hs _ _ (by simp [requiredChars]))
      (pyChoice_mem LOWERCASE cL (by decide))
  · exact anyMem_of_mem _ DIGITS _
      (shuffled_mem cU cL cD cS fullO shuffle hs _ _ (by simp [requiredChars]))
      (pyChoice_mem DIGITS cD (by decide))
  · exact anyMem_of_mem _ SYMBOLS _
      (shuffled_mem cU cL cD cS fullO shuffle hs _ _ (by simp [requiredChars]))
      (pyChoice_mem SYMBOLS cS (by decide))

/-- C1 witness: the theorem applied at length 4 with the zero oracle and the
identity shuffle. -/
theorem generate_password_spec_witness :
    ∃ s, generate_password (some 4) 0 0 0 0 (fun _ => 0) id = Except.ok s ∧
      s.length = (4 : Int).toNat ∧ check_upper s = true ∧ check_lower s = true ∧
      check_digit s = true ∧ check_symbol s = true :=
  generate_password_spec 4 0 0 0 0 (fun _ => 0) id (fun l => List.Perm.refl l)
    (by decide) (by decide)

/-- C3 counterexample: `generate_password(0)` does not raise.  Python's
`length or policy.default_length` treats the falsy length `0` as absent, so
the default length 16 is used and a password is returned. -/
theorem generate_zero_succeeds :
    generate_password (some 0) 0 0 0 0 (fun _ => 0) id =
      Except.ok ("Aa0!AAAAAAAAAAAA") := by rfl

/-- C3 amended: `generate_password` succeeds exactly when the requested
length is `0` (treated as absent, so the in-range default 16 applies) or
lies in `[4, policy.max_length]`; every other length — in particular `3`,
every length in `[1, 3]`, negative lengths, and `max_length + 1` — fails
with the invalid-argument error. -/
theorem generate_password_failure_spec (L : Int) (cU cL cD cS : Nat)
    (fullO : Nat → Nat) (shuffle : List Char → List Char) :
    isOkE (generate_password (some L) cU cL cD cS fullO shuffle) = true ↔
      (L = 0 ∨ (4 ≤ L ∧ L ≤ (get_policy.max_length : Int))) := by
  have hp : ((get_policy.max_length : Nat) : Int) = 128 := by norm_num [get_policy]
  constructor
  · intro h
    by_contra hc
    push_neg at hc
    obtain ⟨h0, hr⟩ := hc
    have he : pyOrInt (some L) 16 = L := pyOrInt_some_of_ne L 16 h0
    rcases lt_or_le L 4 with hlt | hge
    · rw [generate_password_err_small (some L) cU cL cD cS fullO shuffle (by omega)] at h
      exact absurd h (by decide)
    · have h2 := hr hge
      rw [hp] at h2
      rw [generate_password_err_large (some L) cU cL cD cS fullO shuffle (by omega)] at h
      exact absurd h (by decide)
  · intro h
    rcases h with h0 | ⟨h4, hmax⟩
    · subst h0
      rw [generate_password_ok (some 0) cU cL cD cS fullO shuffle (by decide) (by decide)]
      rfl
    · have h0 : L ≠ 0 := by omega
      have he : pyOrInt (some L) 16 = L := pyOrInt_some_of_ne L 16 h0
      rw [hp] at hmax
      rw [generate_password_ok (some L) cU cL cD cS fullO shuffle (by omega) (by omega)]
      rfl

/-- C6 counterexample: with the caller-supplied password `""`, `full_flow`
does not return `""`; Python's `password or generate_password(length)`
treats the empty string as falsy and generates a fresh password instead. -/
theorem full_flow_empty_ce :
    (full_flow (some ("")) (some 4) (fun _ => 0) 0 0 0 0 (fun _ => 0) id =
      Except.ok (("Aa0!"), validate_password ("Aa0!"), score (fun _ => 0) ("Aa0!"))) ∧
    ("Aa0!" : String) ≠ ("") := by
  exact ⟨rfl, by decide⟩

/-- C6 amended: for every nonempty caller-supplied password `p`, `full_flow`
returns `p` unchanged together with its validation and strength results, for
every length argument and every generation oracle — so no generation
influences the outcome. -/
theorem full_flow_supplied_spec (p : String) (hp : p ≠ ("")) (length : Option Int)
    (log2 : Nat → ℚ) (cU cL cD cS : Nat) (fullO : Nat → Nat)
    (shuffle : List Char → List Char) :
    full_flow (some p) length log2 cU cL cD cS fullO shuffle =
      Except.ok (p, validate_password p, score log2 p) := by
  simp [full_flow, pyOrStr, hp]

/-- C6 witness: the amended theorem applied to the password from the spec's
end-to-end example. -/
theorem full_flow_supplied_spec_witness :
    full_flow (some ("Ab1!")) none (fun _ => 0) 0 0 0 0 (fun _ => 0) id =
      Except.ok (("Ab1!"), validate_password ("Ab1!"), score (fun _ => 0) ("Ab1!")) :=
  full_flow_supplied_spec ("Ab1!") (by decide) none (fun _ => 0) 0 0 0 0 (fun _ => 0) id

/-- C9: `full_flow` treats the empty-string password exactly like an absent
one: for every length accepted by the generator it behaves identically to
the password-absent call, generating a fresh password of that length and
returning that password's validation and strength results. -/
theorem full_flow_empty_password_spec (L : Int) (log2 : Nat → ℚ) (cU cL cD cS : Nat)
    (fullO : Nat → Nat) (shuffle : List Char → List Char)
    (hs : ∀ l, (shuffle l).Perm l) (h4 : 4 ≤ L)
    (hmax : L ≤ (get_policy.max_length : Int)) :
    full_flow (some ("")) (some L) log2 cU cL cD cS fullO shuffle =
      full_flow none (some L) log2 cU cL cD cS fullO shuffle ∧
    ∃ g, generate_password (some L) cU cL cD cS fullO shuffle = Except.ok g ∧
      g.length = L.toNat ∧
      full_flow (some ("")) (some L) log2 cU cL cD cS fullO shuffle =
        Except.ok (g, validate_password g, score log2 g) := by
  have hL0 : L ≠ 0 := by omega
  have he : pyOrInt (some L) 16 = L := pyOrInt_some_of_ne L 16 hL0
  have hp : ((get_policy.max_length : Nat) : Int) = 128 := by norm_num [get_policy]
  rw [hp] at hmax
  have hok := generate_password_ok (some L) cU cL cD cS fullO shuffle (by omega) (by omega)
  refine ⟨rfl, _, hok, ?_, ?_⟩
  · rw [shuffled_length cU cL cD cS fullO shuffle hs]
    omega
  · simp [full_flow, pyOrStr, hok]

/-- C9 witness: the theorem applied at length 4 with the zero oracle and
the identity shuffle. -/
theorem full_flow_empty_password_spec_witness :
    full_flow (some ("")) (some 4) (fun _ => 0) 0 0 0 0 (fun _ => 0) id =
      full_flow none (some 4) (fun _ => 0) 0 0 0 0 (fun _ => 0) id ∧
    ∃ g, generate_password (some 4) 0 0 0 0 (fun _ => 0) id = Except.ok g ∧
      g.length = (4 : Int).toNat ∧
      full_flow (some ("")) (some 4) (fun _ => 0) 0 0 0 0 (fun _ => 0) id =
        Except.ok (g, validate_password g, score (fun _ => 0) g) :=
  full_flow_empty_password_spec 4 (fun _ => 0) 0 0 0 0 (fun _ => 0) id
    (fun l => List.Perm.refl l) (by decide) (by decide)

/-- C10: the generator's lower bound (4) is decoupled from the validator's
minimum length (12): for every length in `[4, min_length)` generation
succeeds, yet validating the generated password gives `length_ok = false`
and hence `overall_result = false`. -/
theorem generate_below_min_spec (L : Int) (cU cL cD cS : Nat) (fullO : Nat → Nat)
    (shuffle : List Char → List Char) (hs : ∀ l, (shuffle l).Perm l)
    (h4 : 4 ≤ L) (hlt : L < (get_policy.min_length : Int)) :
    ∃ g, generate_password (some L) cU cL cD cS fullO shuffle = Except.ok g ∧
      (validate_password g).length_ok = false ∧
      (validate_password g).overall_result = false := by
  have hL0 : L ≠ 0 := by omega
  have he : pyOrInt (some L) 16 = L := pyOrInt_some_of_ne L 16 hL0
  have hq : ((get_policy.min_length : Nat) : Int) = 12 := by norm_num [get_policy]
  rw [hq] at hlt
  have hok := generate_password_ok (some L) cU cL cD cS fullO shuffle (by omega) (by omega)
  have hx : (shuffle (requiredChars cU cL cD cS ++
      _pick FULL_SET fullO (pyOrInt (some L) 16 - 4).toNat)).length
      = 4 + (pyOrInt (some L) 16 - 4).toNat :=
    shuffled_length cU cL cD cS fullO shuffle hs (pyOrInt (some L) 16 - 4).toNat
  have h12 : ¬ (12 ≤ (shuffle (requiredChars cU cL cD cS ++
      _pick FULL_SET fullO (pyOrInt (some L) 16 - 4).toNat)).length) := by
    rw [hx]
    omega
  have hcl : check_length (String.mk (shuffle (requiredChars cU cL cD cS ++
      _pick FULL_SET fullO (pyOrInt (some L) 16 - 4).toNat))) = false := by
    simp [check_length, get_policy, h12]
  refine ⟨_, hok, ?_, ?_⟩
  · simp [validate_password, hcl]
  · simp [validate_password, ValidationResult.overall_result, hcl]

/-- C10 witness: the theorem applied at length 4 with the zero oracle and
the identity shuffle. -/
theorem generate_below_min_spec_witness :
    ∃ g, generate_password (some 4) 0 0 0 0 (fun _ => 0) id = Except.ok g ∧
      (validate_password g).length_ok = false ∧
      (validate_password g).overall_result = false :=
  generate_below_min_spec 4 0 0 0 0 (fun _ => 0) id (fun l => List.Perm.refl l)
    (by decide) (by decide)

end App
